import Mathlib

/-!
Verification development for the universal-playwright-framework repository.

Two components carry the logic verified here:

* `TestDataFactory` (src/unnamed/part_003): randomized fixture generators for
  users, events and band rosters.
* `ApiClient` (src/src/api/api-client.ts): a stateful HTTP-client wrapper with
  lifecycle control, response normalization, a health probe and a readiness
  polling loop.

Randomness is embedded explicitly: every call to `Math.random()` used as
`Math.floor(Math.random() * n)` becomes a natural-number draw reduced `% n`
(the set of reachable values is exactly `[0, n)`, as in the source), and the
shuffle idiom `[...xs].sort(() => 0.5 - Math.random())` becomes an arbitrary
function on lists assumed (where a claim needs it) to produce a permutation of
its input, which is what the in-place comparator sort does.  Wall-clock values
(`Date.now()`, the current day for `new Date()`) are passed in as parameters.
-/

namespace TestDataFactory

/-- User-type tag; the source restricts it to the union
`fan | band | solo_artist`. -/
inductive UserType where
  | fan
  | band
  | solo_artist
deriving DecidableEq, Repr, Inhabited

/-- `BandMember` interface from the source. -/
structure BandMember where
  name : String
  instrument : String
  role : String
deriving DecidableEq, Repr, Inhabited

/-- `UserData` interface from the source; the optional fields (`genre?`,
`instruments?`, `bandMembers?`) are `Option`s, `none` meaning the key is
absent from the record. -/
structure UserData where
  firstName : String
  lastName : String
  email : String
  phone : String
  password : String
  userType : UserType
  genre : Option (List String) := none
  instruments : Option (List String) := none
  bandMembers : Option (List BandMember) := none
deriving DecidableEq, Repr, Inhabited

/-- `EventData` interface from the source.  `date` is embedded as a
day number (days since an arbitrary epoch): the source stores the ISO date
string of "now plus the drawn offset in days", which we model as
`today + offset`. -/
structure EventData where
  title : String
  description : String
  date : Nat
  time : String
  venue : String
  address : String
  city : String
  state : String
  zipCode : String
  ticketPrice : Nat
  capacity : Nat
  genre : List String
deriving DecidableEq, Repr, Inhabited

/-- Fixed first-name vocabulary (`getRandomFirstName`). -/
def firstNames : List String :=
  ["Alex", "Jamie", "Taylor", "Jordan", "Casey", "Riley", "Morgan", "Drew",
   "Sam", "Avery", "Quinn", "Blake", "Sage", "River", "Rowan", "Skylar"]

/-- Fixed last-name vocabulary (`getRandomLastName`). -/
def lastNames : List String :=
  ["Smith", "Johnson", "Williams", "Brown", "Jones", "Garcia", "Miller",
   "Davis", "Rodriguez", "Martinez", "Hernandez", "Lopez", "Gonzalez",
   "Wilson", "Anderson", "Thomas", "Taylor", "Moore", "Jackson", "Martin"]

/-- Fixed genre vocabulary (`getRandomGenres`). -/
def genres : List String :=
  ["Rock", "Pop", "Jazz", "Blues", "Country", "Electronic", "Hip Hop",
   "Classical", "Folk", "Reggae", "R&B", "Indie", "Alternative", "Metal"]

/-- Fixed instrument vocabulary (`getRandomInstruments`). -/
def instruments : List String :=
  ["Guitar", "Bass", "Drums", "Piano", "Keyboard", "Violin", "Saxophone",
   "Trumpet", "Flute", "Clarinet", "Vocals", "Cello", "Harmonica", "Ukulele"]

/-- Fixed role list used by `generateBandMembers`. -/
def roles : List String :=
  ["Lead Vocalist", "Guitarist", "Bassist", "Drummer", "Keyboardist"]

/-- `getRandomFirstName`: `names[Math.floor(Math.random() * names.length)]`;
`r` is the random draw. -/
def getRandomFirstName (r : Nat) : String :=
  firstNames.getD (r % firstNames.length) ""

/-- `getRandomLastName`. -/
def getRandomLastName (r : Nat) : String :=
  lastNames.getD (r % lastNames.length) ""

/-- `generatePhoneNumber`: area code 100–999, exchange 100–999, number
1000–9999, hyphen-joined. -/
def generatePhoneNumber (a e n : Nat) : String :=
  toString (a % 900 + 100) ++ "-" ++ toString (e % 900 + 100) ++ "-" ++
    toString (n % 9000 + 1000)

/-- `getRandomGenres(count)`: shuffle the genre vocabulary, take the first
`count`.  `sh` is the shuffle produced by the comparator sort. -/
def getRandomGenres (sh : List String → List String) (count : Nat) : List String :=
  (sh genres).take count

/-- `getRandomInstruments(count)`: shuffle the instrument vocabulary, take the
first `count`. -/
def getRandomInstruments (sh : List String → List String) (count : Nat) : List String :=
  (instruments |> sh).take count

/-- `generateBandMembers`: roster of `Math.floor(Math.random()*4) + 2`
members; instruments drawn without replacement via `getRandomInstruments`;
roles from the fixed list with `Musician` fallback (`roles[i] || roleFallback`).
`ρ` is the stream of random draws (draw 0 is the roster-size draw, draws
`2i+1`/`2i+2` are the name picks of member `i`); `sh` the instrument shuffle. -/
def generateBandMembers (ρ : Nat → Nat) (sh : List String → List String) :
    List BandMember :=
  let memberCount := ρ 0 % 4 + 2
  let chosen := getRandomInstruments sh memberCount
  (List.range memberCount).map fun i =>
    { name := getRandomFirstName (ρ (2 * i + 1)) ++ " " ++
        getRandomLastName (ρ (2 * i + 2))
      instrument := chosen.getD i ""
      role := roles.getD i "Musician" }

/-- Randomness and clock input consumed by one `generateUser` call. -/
structure UserRand where
  fnIdx : Nat
  lnIdx : Nat
  now : Nat
  areaR : Nat
  exchR : Nat
  numR : Nat
  shuffleG : List String → List String
  shuffleI : List String → List String
  bandρ : Nat → Nat

/-- `generateUser(userType)`: base fields always; a `band` additionally gets
`genre` (2 picks) and `bandMembers`; a `solo_artist` additionally gets
`genre` (1 pick) and `instruments` (2 picks); a `fan` gets no optional
field. -/
def generateUser (r : UserRand) (userType : UserType) : UserData :=
  let firstName := getRandomFirstName r.fnIdx
  let lastName := getRandomLastName r.lnIdx
  let email := "test-" ++ firstName.toLower ++ "-" ++ toString r.now ++
    "@example.amazonses.com"
  let userData : UserData :=
    { firstName := firstName
      lastName := lastName
      email := email
      phone := generatePhoneNumber r.areaR r.exchR r.numR
      password := "TestPassword123!"
      userType := userType }
  match userType with
  | .band =>
      { userData with
          genre := some (getRandomGenres r.shuffleG 2)
          bandMembers := some (generateBandMembers r.bandρ r.shuffleI) }
  | .solo_artist =>
      { userData with
          genre := some (getRandomGenres r.shuffleG 1)
          instruments := some (getRandomInstruments r.shuffleI 2) }
  | .fan => userData

/-- The fixed ordered type list of `generateUsers`. -/
def userTypes : List UserType := [.fan, .band, .solo_artist]

/-- `generateUsers(count)`: `count` records, the `i`-th generated with type
`userTypes[i % userTypes.length]`; `σ` supplies per-call randomness. -/
def generateUsers (σ : Nat → UserRand) (count : Nat) : List UserData :=
  (List.range count).map fun i =>
    generateUser (σ i) (userTypes.getD (i % userTypes.length) .fan)

/-- Fixed event-title vocabulary. -/
def eventTitles : List String :=
  ["Summer Music Festival", "Rock Night", "Jazz Evening", "Acoustic Session",
   "Electronic Beats", "Country Roads", "Indie Showcase", "Metal Mayhem",
   "Blues Brothers", "Pop Paradise", "Folk Tales", "Classical Concert"]

/-- Fixed event-description vocabulary. -/
def eventDescriptions : List String :=
  ["Join us for an unforgettable night of live music and entertainment.",
   "Experience the best local talent in an intimate venue setting.",
   "A celebration of music that will leave you wanting more.",
   "Don\x27t miss this incredible showcase of musical artistry.",
   "An evening filled with amazing performances and great vibes."]

/-- Fixed venue vocabulary. -/
def venues : List String :=
  ["The Music Hall", "Downtown Theater", "Rock Palace", "Jazz Lounge",
   "Concert Arena", "The Stage", "Music Box", "Harmony Hall",
   "Sound Stage", "The Venue", "Live House", "Performance Center"]

/-- Fixed street-name vocabulary. -/
def streetNames : List String :=
  ["Main St", "Oak Ave", "Park Blvd", "First St", "Broadway",
   "Center St", "Church St", "Music Ave", "Concert Dr", "Harmony Ln"]

/-- Fixed city vocabulary. -/
def cities : List String :=
  ["Austin", "Nashville", "Los Angeles", "New York", "Chicago",
   "Seattle", "Portland", "Denver", "Atlanta", "Miami"]

/-- Fixed state vocabulary. -/
def states : List String :=
  ["TX", "TN", "CA", "NY", "IL", "WA", "OR", "CO", "GA", "FL"]

/-- `getRandomTime`: hour draw maps to 7–18, minutes `00` or `30`
(`Math.random() > 0.5`), 12-hour display string. -/
def getRandomTime (hr : Nat) (half : Bool) : String :=
  let hours := hr % 12 + 7
  let minutes := if half then "00" else "30"
  let period := if hours ≤ 11 then "PM" else "AM"
  let displayHour := if hours > 12 then hours - 12 else hours
  toString displayHour ++ ":" ++ minutes ++ " " ++ period

/-- `getRandomAddress`: street number 1–9999 plus a street name. -/
def getRandomAddress (numR idx : Nat) : String :=
  toString (numR % 9999 + 1) ++ " " ++ streetNames.getD (idx % streetNames.length) ""

/-- `generateZipCode`: `Math.floor(Math.random() * 90000 + 10000)` as a
string. -/
def generateZipCode (r : Nat) : String :=
  toString (r % 90000 + 10000)

/-- Randomness consumed by one `generateEvent` call. -/
structure EventRand where
  shuffleG : List String → List String
  dateR : Nat
  priceR : Nat
  capR : Nat
  titleIdx : Nat
  descIdx : Nat
  hourR : Nat
  half : Bool
  venueIdx : Nat
  streetNumR : Nat
  streetIdx : Nat
  cityIdx : Nat
  stateIdx : Nat
  zipR : Nat

/-- `generateEvent()`: one genre, date `today + (1..30)` days, price
`20..119`, capacity `50..549`; `today` is the call-time day number. -/
def generateEvent (r : EventRand) (today : Nat) : EventData :=
  let gs := getRandomGenres r.shuffleG 1
  let eventDate := today + (r.dateR % 30 + 1)
  { title := eventTitles.getD (r.titleIdx % eventTitles.length) "" ++ " Concert"
    description := eventDescriptions.getD (r.descIdx % eventDescriptions.length) ""
    date := eventDate
    time := getRandomTime r.hourR r.half
    venue := venues.getD (r.venueIdx % venues.length) ""
    address := getRandomAddress r.streetNumR r.streetIdx
    city := cities.getD (r.cityIdx % cities.length) ""
    state := states.getD (r.stateIdx % states.length) ""
    zipCode := generateZipCode r.zipR
    ticketPrice := r.priceR % 100 + 20
    capacity := r.capR % 500 + 50
    genre := gs }

end TestDataFactory

/-! ## ApiClient (src/src/api/api-client.ts)

The Playwright `APIRequestContext` is embedded abstractly: the client state
keeps only whether a context is open (`Option Unit`), and the transport is a
function from the request the client sends to either a fault message (a thrown
transport error) or a raw response.  Header mappings are total functions
`String → Option String` (a JS object keyed by header name).  Each operation
returns, alongside its `Except` result, the list of requests it actually sent
over the transport, so that "performs no request" is expressible. -/

/-- A raw transport response as observed by `processResponse`:
status, header mapping, and the two fallible body readers
(`response.json()` / `response.text()`); the Playwright `response.ok()` is
status ∈ 200..299, computed in `statusOk`. -/
structure RawResponse where
  status : Nat
  headers : String → Option String
  readJson : Except String String
  readText : Except String String

/-- `response.ok()`: status in the 200–299 success range. -/
def statusOk (status : Nat) : Bool :=
  decide (200 ≤ status) && decide (status ≤ 299)

/-- `ApiResponse<T>` envelope; `data = none` is a null body. -/
structure ApiResponse where
  status : Nat
  headers : String → Option String
  data : Option String
  ok : Bool

/-- `RequestOptions` from the source; all fields optional. -/
structure RequestOptions where
  headers : String → Option String := fun _ => none
  data : Option String := none
  params : Option (List (String × String)) := none
  timeout : Option Nat := none

/-- A request handed to the transport: method, final URL, merged headers,
body, timeout, and the multipart payload for `uploadFile`
(field name, file path, additional fields). -/
structure SentRequest where
  method : String
  url : String
  headers : String → Option String
  data : Option String
  timeout : Option Nat
  multipart : Option (String × String × List (String × String)) := none

/-- The HTTP transport capability: either a thrown fault or a raw response. -/
def Transport : Type := SentRequest → Except String RawResponse

/-- Client state: one optional open context, fixed base URL, mutable
default-header mapping. -/
structure ApiClient where
  context : Option Unit
  baseURL : String
  defaultHeaders : String → Option String

namespace ApiClient

/-- The constructor: no context yet; defaults are JSON content negotiation
overridden by caller-supplied headers (object spread, caller wins). -/
def create (baseURL : String) (defaultHeaders : String → Option String) : ApiClient :=
  { context := none
    baseURL := baseURL
    defaultHeaders := fun k =>
      match defaultHeaders k with
      | some v => some v
      | none =>
          if k = "Content-Type" then some "application/json"
          else if k = "Accept" then some "application/json"
          else none }

/-- `init()`: opens the transport context. -/
def init (s : ApiClient) : ApiClient :=
  { s with context := some () }

/-- `dispose()`: closes the context when one is open; a no-op otherwise. -/
def dispose (s : ApiClient) : ApiClient :=
  if s.context.isSome then { s with context := none } else s

/-- `setAuthToken(token)`: sets the `Authorization` default header to
`Bearer <token>`. -/
def setAuthToken (token : String) (s : ApiClient) : ApiClient :=
  { s with defaultHeaders := fun k =>
      if k = "Authorization" then some ("Bearer " ++ token)
      else s.defaultHeaders k }

/-- `clearAuthToken()`: deletes the `Authorization` default header. -/
def clearAuthToken (s : ApiClient) : ApiClient :=
  { s with defaultHeaders := fun k =>
      if k = "Authorization" then none
      else s.defaultHeaders k }

/-- `{...this.defaultHeaders, ...headers}`: per-call headers win. -/
def mergeHeaders (base extra : String → Option String) : String → Option String :=
  fun k =>
    match extra k with
    | some v => some v
    | none => base k

/-- Substring test embedding JS `String.prototype.includes`. -/
def strContains (s pat : String) : Bool :=
  (List.range (s.data.length + 1)).any fun i => List.isPrefixOf pat.data (s.data.drop i)

/-- Query-string append: `&` when the URL already contains `?`, else `?`. -/
def appendParams (url : String) (ps : List (String × String)) : String :=
  url ++ (if strContains url "?" then "&" else "?") ++
    String.intercalate "&" (ps.map fun p => p.1 ++ "=" ++ p.2)

/-- `method.toUpperCase()`: character-wise ASCII uppercase. -/
def toUpperCase (s : String) : String :=
  ⟨s.data.map Char.toUpper⟩

/-- The five supported verb cases of the `switch (method.toUpperCase())`. -/
def supportedMethod (m : String) : Bool :=
  m = "GET" || m = "POST" || m = "PUT" || m = "PATCH" || m = "DELETE"

/-- The body decode of `processResponse`: `response.json()` when the content type
includes `application/json`, else `response.text()`. -/
def bodyReader (r : RawResponse) : Except String String :=
  let contentType := (r.headers "content-type").getD ""
  if strContains contentType "application/json" then r.readJson else r.readText

/-- `processResponse(response)`: envelope from status/headers/ok; a body-read
or parse failure is caught and degrades to a null body. -/
def processResponse (r : RawResponse) : ApiResponse :=
  { status := r.status
    headers := r.headers
    data := (bodyReader r).toOption
    ok := statusOk r.status }

/-- `makeRequest(method, url, options)`: fails if no context is open; merges
headers, applies the 30000 ms default timeout, appends query params,
dispatches on the uppercased method, and normalizes the response.  The second
component is the list of requests sent over the transport. -/
def makeRequest (t : Transport) (s : ApiClient) (method url : String)
    (options : RequestOptions := {}) :
    Except String ApiResponse × List SentRequest :=
  if s.context.isNone then (.error "API client not initialized", [])
  else
    let mergedHeaders := mergeHeaders s.defaultHeaders options.headers
    let url' :=
      match options.params with
      | some ps => appendParams url ps
      | none => url
    if supportedMethod (toUpperCase method) then
      let sent : SentRequest :=
        { method := toUpperCase method
          url := url'
          headers := mergedHeaders
          data := options.data
          timeout := some (options.timeout.getD 30000) }
      match t sent with
      | .ok raw => (.ok (processResponse raw), [sent])
      | .error e => (.error e, [sent])
    else (.error ("Unsupported HTTP method: " ++ method), [])

/-- `get(url, options)`. -/
def get (t : Transport) (s : ApiClient) (url : String)
    (options : RequestOptions := {}) :
    Except String ApiResponse × List SentRequest :=
  makeRequest t s "GET" url options

/-- `post(url, data, options)`: `{...options, data}`. -/
def post (t : Transport) (s : ApiClient) (url : String)
    (data : Option String := none) (options : RequestOptions := {}) :
    Except String ApiResponse × List SentRequest :=
  makeRequest t s "POST" url { options with data := data }

/-- `put(url, data, options)`. -/
def put (t : Transport) (s : ApiClient) (url : String)
    (data : Option String := none) (options : RequestOptions := {}) :
    Except String ApiResponse × List SentRequest :=
  makeRequest t s "PUT" url { options with data := data }

/-- `patch(url, data, options)`. -/
def patch (t : Transport) (s : ApiClient) (url : String)
    (data : Option String := none) (options : RequestOptions := {}) :
    Except String ApiResponse × List SentRequest :=
  makeRequest t s "PATCH" url { options with data := data }

/-- `delete(url, options)`. -/
def delete (t : Transport) (s : ApiClient) (url : String)
    (options : RequestOptions := {}) :
    Except String ApiResponse × List SentRequest :=
  makeRequest t s "DELETE" url options

/-- `uploadFile(url, filePath, fieldName, additionalData)`: fails if no
context is open, else posts a multipart body and normalizes the response. -/
def uploadFile (t : Transport) (s : ApiClient) (url filePath : String)
    (fieldName : String := "file")
    (additionalData : List (String × String) := []) :
    Except String ApiResponse × List SentRequest :=
  if s.context.isNone then (.error "API client not initialized", [])
  else
    let sent : SentRequest :=
      { method := "POST"
        url := url
        headers := fun _ => none
        data := none
        timeout := none
        multipart := some (fieldName, filePath, additionalData) }
    match t sent with
    | .ok raw => (.ok (processResponse raw), [sent])
    | .error e => (.error e, [sent])

/-- `healthCheck()`: GET `/health`, return the ok flag of the envelope; any thrown
error is caught and becomes `false`. -/
def healthCheck (t : Transport) (s : ApiClient) : Bool :=
  match (get t s "/health").fst with
  | .ok response => response.ok
  | .error _ => false

/-- The readiness loop body of `waitForApiReady`: `ts i` is the transport
state during attempt `i` (0-based here; the source numbers attempts from 1),
the second argument the remaining attempt budget.  Returns the result, the
number of health checks performed, and the list of inter-attempt delays slept
(each of duration `delay`), in order. -/
def waitGo (ts : Nat → Transport) (s : ApiClient) (delay : Nat) :
    Nat → Nat → Except String Unit × Nat × List Nat
  | _, 0 => (.error "API failed to become ready within timeout", 0, [])
  | i, remaining + 1 =>
    if healthCheck (ts i) s then (.ok (), 1, [])
    else if remaining = 0 then
      (.error "API failed to become ready within timeout", 1, [])
    else
      let rest := waitGo ts s delay (i + 1) remaining
      (rest.1, rest.2.1 + 1, delay :: rest.2.2)

/-- `waitForApiReady(maxAttempts, delay)`: poll `healthCheck()` up to
`maxAttempts` times, sleeping `delay` ms between consecutive attempts;
return on the first `true`, throw a readiness-timeout error after
exhausting the budget. -/
def waitForApiReady (ts : Nat → Transport) (s : ApiClient)
    (maxAttempts : Nat := 10) (delay : Nat := 2000) :
    Except String Unit × Nat × List Nat :=
  waitGo ts s delay 0 maxAttempts

end ApiClient

/-! Concrete instances used by witness theorems. -/

/-- All-zero randomness with identity shuffles. -/
def rand0 : TestDataFactory.UserRand :=
  { fnIdx := 0, lnIdx := 0, now := 0, areaR := 0, exchR := 0, numR := 0,
    shuffleG := id, shuffleI := id, bandρ := fun _ => 0 }

/-- All-zero event randomness with identity shuffle. -/
def erand0 : TestDataFactory.EventRand :=
  { shuffleG := id, dateR := 0, priceR := 0, capR := 0, titleIdx := 0,
    descIdx := 0, hourR := 0, half := true, venueIdx := 0, streetNumR := 0,
    streetIdx := 0, cityIdx := 0, stateIdx := 0, zipR := 0 }

/-- The band roster `generateUser rand0 .band` produces. -/
def roster0 : List TestDataFactory.BandMember :=
  [{ name := "Alex Smith", instrument := "Guitar", role := "Lead Vocalist" },
   { name := "Alex Smith", instrument := "Bass", role := "Guitarist" }]

/-- A transport that always faults (connection refused). -/
def tErr : Transport := fun _ => .error "ECONNREFUSED"

/-- A 404 JSON response whose body fails to parse. -/
def raw404 : RawResponse :=
  { status := 404
    headers := fun k => if k = "content-type" then some "application/json" else none
    readJson := .error "Unexpected end of JSON input"
    readText := .ok "" }

/-- A 200 JSON response. -/
def raw200 : RawResponse :=
  { status := 200
    headers := fun k => if k = "content-type" then some "application/json" else none
    readJson := .ok "ok"
    readText := .ok "ok" }

/-- A transport that always answers with `raw404`. -/
def t404 : Transport := fun _ => .ok raw404

/-- A transport that always answers with `raw200`. -/
def t200 : Transport := fun _ => .ok raw200

/-- A fresh, never-initialized client. -/
def client0 : ApiClient := ApiClient.create "http://localhost:3000" fun _ => none

/-- An initialized client. -/
def client1 : ApiClient := client0.init

/-- A placeholder request, used as a `getD` default. -/
def sent0 : SentRequest :=
  { method := "", url := "", headers := fun _ => none, data := none, timeout := none }

/-! Helper lemmas. -/

/-- Reading every position of a list in order reproduces the list. -/
lemma map_getD_range {α : Type} (l : List α) (d : α) :
    (List.range l.length).map (fun i => l.getD i d) = l := by
  induction l with
  | nil => rfl
  | cons a t ih =>
      rw [List.length_cons, List.range_succ_eq_map, List.map_cons, List.map_map]
      have h : ((fun i => (a :: t).getD i d) ∘ Nat.succ) = fun i => t.getD i d := by
        funext i
        simp [List.getD]
      rw [h, ih]
      rfl

/-- The `userType` field of a generated user is the requested type. -/
lemma generateUser_userType (r : TestDataFactory.UserRand)
    (ut : TestDataFactory.UserType) :
    (TestDataFactory.generateUser r ut).userType = ut := by
  cases ut <;> rfl

/-! Claim theorems. -/

/-- C4: for every user-type input, `generateUser` returns a record carrying
exactly the fields mandated for that type: the base fields always (they are
mandatory fields of the record), `genre` and `bandMembers` additionally for a
band, `genre` and `instruments` additionally for a solo artist, and no
optional field for a fan. -/
theorem generateUser_fields_by_type (r : TestDataFactory.UserRand) :
    ((TestDataFactory.generateUser r .fan).userType = .fan ∧
     (TestDataFactory.generateUser r .fan).genre = none ∧
     (TestDataFactory.generateUser r .fan).instruments = none ∧
     (TestDataFactory.generateUser r .fan).bandMembers = none) ∧
    ((TestDataFactory.generateUser r .band).userType = .band ∧
     (TestDataFactory.generateUser r .band).genre.isSome = true ∧
     (TestDataFactory.generateUser r .band).bandMembers.isSome = true ∧
     (TestDataFactory.generateUser r .band).instruments = none) ∧
    ((TestDataFactory.generateUser r .solo_artist).userType = .solo_artist ∧
     (TestDataFactory.generateUser r .solo_artist).genre.isSome = true ∧
     (TestDataFactory.generateUser r .solo_artist).instruments.isSome = true ∧
     (TestDataFactory.generateUser r .solo_artist).bandMembers = none) :=
  ⟨⟨rfl, rfl, rfl, rfl⟩, ⟨rfl, rfl, rfl, rfl⟩, ⟨rfl, rfl, rfl, rfl⟩⟩

/-- C7: `generateUsers n` returns exactly `n` records, and the user type of
the record at index `i` is the element at position `i % 3` of the fixed
ordered list `[fan, band, solo_artist]`. -/
theorem generateUsers_count_and_cycle (σ : Nat → TestDataFactory.UserRand)
    (n : Nat) :
    (TestDataFactory.generateUsers σ n).length = n ∧
    ∀ i, i < n →
      ((TestDataFactory.generateUsers σ n).getD i default).userType =
        TestDataFactory.userTypes.getD (i % 3) .fan := by
  constructor
  · simp [TestDataFactory.generateUsers]
  · intro i hi
    have h1 : (TestDataFactory.generateUsers σ n).getD i default =
        TestDataFactory.generateUser (σ i)
          (TestDataFactory.userTypes.getD (i % TestDataFactory.userTypes.length) .fan) := by
      rw [List.getD_eq_getElem?_getD, TestDataFactory.generateUsers,
        List.getElem?_map, List.getElem?_range hi]
      rfl
    rw [h1, generateUser_userType]
    rfl

/-- Witness for C7 at `n = 4`: four records, types cycling
fan, band, solo, fan. -/
theorem generateUsers_count_and_cycle_witness :
    (TestDataFactory.generateUsers (fun _ => rand0) 4).length = 4 ∧
    ((TestDataFactory.generateUsers (fun _ => rand0) 4).getD 0 default).userType = .fan ∧
    ((TestDataFactory.generateUsers (fun _ => rand0) 4).getD 1 default).userType = .band ∧
    ((TestDataFactory.generateUsers (fun _ => rand0) 4).getD 2 default).userType = .solo_artist ∧
    ((TestDataFactory.generateUsers (fun _ => rand0) 4).getD 3 default).userType = .fan :=
  ⟨(generateUsers_count_and_cycle (fun _ => rand0) 4).1,
   (generateUsers_count_and_cycle (fun _ => rand0) 4).2 0 (by decide),
   (generateUsers_count_and_cycle (fun _ => rand0) 4).2 1 (by decide),
   (generateUsers_count_and_cycle (fun _ => rand0) 4).2 2 (by decide),
   (generateUsers_count_and_cycle (fun _ => rand0) 4).2 3 (by decide)⟩

/-- C8: every band roster has between 2 and 5 members, every assigned
instrument belongs to the fixed instrument vocabulary, and the instruments
across the roster are pairwise distinct (drawn without replacement); `hsh`
states that the comparator sort permutes its input. -/
theorem generateUser_band_roster (r : TestDataFactory.UserRand)
    (hsh : ∀ xs, List.Perm (r.shuffleI xs) xs)
    (ms : List TestDataFactory.BandMember)
    (hms : (TestDataFactory.generateUser r .band).bandMembers = some ms) :
    (2 ≤ ms.length ∧ ms.length ≤ 5) ∧
    (∀ m ∈ ms, m.instrument ∈ TestDataFactory.instruments) ∧
    (ms.map TestDataFactory.BandMember.instrument).Nodup := by
  have hx : TestDataFactory.generateBandMembers r.bandρ r.shuffleI = ms :=
    Option.some.inj hms
  subst hx
  have hmod : r.bandρ 0 % 4 < 4 := Nat.mod_lt _ (by norm_num)
  have hlen14 : (r.shuffleI TestDataFactory.instruments).length = 14 :=
    (hsh TestDataFactory.instruments).length_eq
  have hch : (TestDataFactory.getRandomInstruments r.shuffleI (r.bandρ 0 % 4 + 2)).length
      = r.bandρ 0 % 4 + 2 := by
    rw [TestDataFactory.getRandomInstruments, List.length_take, hlen14]
    omega
  have hmap : (TestDataFactory.generateBandMembers r.bandρ r.shuffleI).map
      TestDataFactory.BandMember.instrument =
      TestDataFactory.getRandomInstruments r.shuffleI (r.bandρ 0 % 4 + 2) := by
    simp only [TestDataFactory.generateBandMembers, List.map_map]
    have hcomp : (TestDataFactory.BandMember.instrument ∘ fun i =>
        ({ name := TestDataFactory.getRandomFirstName (r.bandρ (2 * i + 1)) ++ " " ++
             TestDataFactory.getRandomLastName (r.bandρ (2 * i + 2))
           instrument := (TestDataFactory.getRandomInstruments r.shuffleI
             (r.bandρ 0 % 4 + 2)).getD i ""
           role := TestDataFactory.roles.getD i "Musician" } :
           TestDataFactory.BandMember)) =
        fun i => (TestDataFactory.getRandomInstruments r.shuffleI
          (r.bandρ 0 % 4 + 2)).getD i "" := by
      funext i
      rfl
    rw [hcomp]
    have hext := map_getD_range
      (TestDataFactory.getRandomInstruments r.shuffleI (r.bandρ 0 % 4 + 2)) ""
    rw [hch] at hext
    exact hext
  have hnodupI : TestDataFactory.instruments.Nodup := by decide
  have hnodupSh : (r.shuffleI TestDataFactory.instruments).Nodup :=
    (hsh TestDataFactory.instruments).nodup_iff.mpr hnodupI
  have hnodupCh :
      (TestDataFactory.getRandomInstruments r.shuffleI (r.bandρ 0 % 4 + 2)).Nodup :=
    hnodupSh.sublist (List.take_sublist ..)
  have hlenms : (TestDataFactory.generateBandMembers r.bandρ r.shuffleI).length =
      r.bandρ 0 % 4 + 2 := by
    simp [TestDataFactory.generateBandMembers]
  refine ⟨⟨by omega, by omega⟩, ?_, ?_⟩
  · intro m hm
    have h1 : m.instrument ∈ (TestDataFactory.generateBandMembers r.bandρ r.shuffleI).map
        TestDataFactory.BandMember.instrument := List.mem_map_of_mem _ hm
    rw [hmap, TestDataFactory.getRandomInstruments] at h1
    exact (hsh TestDataFactory.instruments).subset (List.take_subset _ _ h1)
  · rw [hmap]
    exact hnodupCh

/-- Witness for C8 at `rand0`: the concrete roster has 2 members, instruments
Guitar and Bass, both in the vocabulary and distinct. -/
theorem generateUser_band_roster_witness :
    (TestDataFactory.generateUser rand0 .band).bandMembers = some roster0 ∧
    (2 ≤ roster0.length ∧ roster0.length ≤ 5) ∧
    ((roster0.getD 0 default).instrument ∈ TestDataFactory.instruments) ∧
    (roster0.map TestDataFactory.BandMember.instrument).Nodup :=
  ⟨rfl,
   (generateUser_band_roster rand0 (fun xs => List.Perm.refl xs) roster0 rfl).1,
   (generateUser_band_roster rand0 (fun xs => List.Perm.refl xs) roster0 rfl).2.1
     _ (by decide),
   (generateUser_band_roster rand0 (fun xs => List.Perm.refl xs) roster0 rfl).2.2⟩

/-- C9: every generated event has an integer ticket price in 20..119, an
integer capacity in 50..549, a genre list of exactly one genre, and a date
between 1 and 30 days after the call-time day `today` — in particular
strictly in the future. -/
theorem generateEvent_ranges (r : TestDataFactory.EventRand) (today : Nat)
    (hsh : ∀ xs, List.Perm (r.shuffleG xs) xs) :
    20 ≤ (TestDataFactory.generateEvent r today).ticketPrice ∧
    (TestDataFactory.generateEvent r today).ticketPrice ≤ 119 ∧
    50 ≤ (TestDataFactory.generateEvent r today).capacity ∧
    (TestDataFactory.generateEvent r today).capacity ≤ 549 ∧
    (TestDataFactory.generateEvent r today).genre.length = 1 ∧
    today + 1 ≤ (TestDataFactory.generateEvent r today).date ∧
    (TestDataFactory.generateEvent r today).date ≤ today + 30 ∧
    today < (TestDataFactory.generateEvent r today).date := by
  have hp : (TestDataFactory.generateEvent r today).ticketPrice =
      r.priceR % 100 + 20 := rfl
  have hc : (TestDataFactory.generateEvent r today).capacity =
      r.capR % 500 + 50 := rfl
  have hd : (TestDataFactory.generateEvent r today).date =
      today + (r.dateR % 30 + 1) := rfl
  have hg : (TestDataFactory.generateEvent r today).genre =
      (r.shuffleG TestDataFactory.genres).take 1 := rfl
  have h100 : r.priceR % 100 < 100 := Nat.mod_lt _ (by norm_num)
  have h500 : r.capR % 500 < 500 := Nat.mod_lt _ (by norm_num)
  have h30 : r.dateR % 30 < 30 := Nat.mod_lt _ (by norm_num)
  have hglen : (TestDataFactory.generateEvent r today).genre.length = 1 := by
    rw [hg, List.length_take, (hsh TestDataFactory.genres).length_eq]
    rfl
  exact ⟨by omega, by omega, by omega, by omega, hglen, by omega, by omega, by omega⟩

/-- Witness for C9 at `erand0` and day 100: price 20, capacity 50, one genre,
date 101. -/
theorem generateEvent_ranges_witness :
    20 ≤ (TestDataFactory.generateEvent erand0 100).ticketPrice ∧
    (TestDataFactory.generateEvent erand0 100).ticketPrice ≤ 119 ∧
    50 ≤ (TestDataFactory.generateEvent erand0 100).capacity ∧
    (TestDataFactory.generateEvent erand0 100).capacity ≤ 549 ∧
    (TestDataFactory.generateEvent erand0 100).genre.length = 1 ∧
    100 + 1 ≤ (TestDataFactory.generateEvent erand0 100).date ∧
    (TestDataFactory.generateEvent erand0 100).date ≤ 100 + 30 ∧
    100 < (TestDataFactory.generateEvent erand0 100).date :=
  generateEvent_ranges erand0 100 (fun xs => List.Perm.refl xs)

/-- A request on an initialized client whose transport yields `raw` is
normalized without throwing (any supported method). -/
lemma makeRequest_transport_ok (t : Transport) (s : ApiClient)
    (method url : String) (opts : RequestOptions) (raw : RawResponse)
    (hctx : s.context = some ())
    (hm : ApiClient.supportedMethod (ApiClient.toUpperCase method) = true)
    (ht : ∀ q, t q = .ok raw) :
    (ApiClient.makeRequest t s method url opts).fst =
      .ok (ApiClient.processResponse raw) := by
  have hb : s.context.isNone = false := by rw [hctx]; rfl
  simp only [ApiClient.makeRequest, hb, Bool.false_eq_true, if_false, hm, if_true, ht]

/-- C1: each verb method and `uploadFile` fails with the
`API client not initialized` error, sending nothing over the transport, when
the client has no open context — which is the case for a freshly constructed
client (before `init`) and for any client after `dispose`. -/
theorem uninitialized_operations_fail (t : Transport) (b : String)
    (hs : String → Option String) (s' : ApiClient) (url fp fn : String)
    (d : Option String) (opts : RequestOptions)
    (ad : List (String × String)) :
    ((ApiClient.create b hs).context = none ∧
     (ApiClient.dispose s').context = none) ∧
    ∀ s : ApiClient, s.context = none →
      ApiClient.get t s url opts = (.error "API client not initialized", []) ∧
      ApiClient.post t s url d opts = (.error "API client not initialized", []) ∧
      ApiClient.put t s url d opts = (.error "API client not initialized", []) ∧
      ApiClient.patch t s url d opts = (.error "API client not initialized", []) ∧
      ApiClient.delete t s url opts = (.error "API client not initialized", []) ∧
      ApiClient.uploadFile t s url fp fn ad =
        (.error "API client not initialized", []) := by
  constructor
  · refine ⟨rfl, ?_⟩
    cases h : s'.context with
    | none => simp [ApiClient.dispose, h]
    | some u => simp [ApiClient.dispose, h]
  · intro s hcn
    have hb : s.context.isNone = true := by rw [hcn]; rfl
    refine ⟨?_, ?_, ?_, ?_, ?_, ?_⟩ <;>
      simp [ApiClient.get, ApiClient.post, ApiClient.put, ApiClient.patch,
        ApiClient.delete, ApiClient.uploadFile, ApiClient.makeRequest, hb]

/-- Witness for C1: a fresh client and a disposed client both reject a GET
and an upload without sending anything. -/
theorem uninitialized_operations_fail_witness :
    ApiClient.get tErr client0 "/health" =
      (.error "API client not initialized", []) ∧
    ApiClient.uploadFile tErr (ApiClient.dispose client1) "/health" "a.txt" "file" [] =
      (.error "API client not initialized", []) :=
  ⟨((uninitialized_operations_fail tErr "b" (fun _ => none) client1 "/health"
      "a.txt" "file" none {} []).2 client0 rfl).1,
   ((uninitialized_operations_fail tErr "b" (fun _ => none) client1 "/health"
      "a.txt" "file" none {} []).2 (ApiClient.dispose client1) rfl).2.2.2.2.2⟩

/-- C2: on an initialized client whose transport answers with a non-2xx
response, every verb call returns normally with an envelope carrying the
response status, an `ok` flag of `false`, and the response headers. -/
theorem verbs_non2xx_envelope (t : Transport) (s : ApiClient)
    (raw : RawResponse) (url : String) (d : Option String)
    (opts : RequestOptions)
    (hctx : s.context = some ())
    (ht : ∀ q, t q = .ok raw)
    (hnot : ¬ (200 ≤ raw.status ∧ raw.status ≤ 299)) :
    ((ApiClient.get t s url opts).fst = .ok (ApiClient.processResponse raw) ∧
     (ApiClient.post t s url d opts).fst = .ok (ApiClient.processResponse raw) ∧
     (ApiClient.put t s url d opts).fst = .ok (ApiClient.processResponse raw) ∧
     (ApiClient.patch t s url d opts).fst = .ok (ApiClient.processResponse raw) ∧
     (ApiClient.delete t s url opts).fst = .ok (ApiClient.processResponse raw)) ∧
    (ApiClient.processResponse raw).status = raw.status ∧
    (ApiClient.processResponse raw).ok = false ∧
    (ApiClient.processResponse raw).headers = raw.headers := by
  have hok : statusOk raw.status = false := by
    unfold statusOk
    rcases Nat.lt_or_ge raw.status 200 with h | h
    · have hd : decide (200 ≤ raw.status) = false := decide_eq_false (by omega)
      rw [hd, Bool.false_and]
    · have h2 : ¬ raw.status ≤ 299 := fun hc => hnot ⟨h, hc⟩
      have hd : decide (raw.status ≤ 299) = false := decide_eq_false h2
      rw [hd, Bool.and_false]
  refine ⟨⟨?_, ?_, ?_, ?_, ?_⟩, rfl, hok, rfl⟩ <;>
    exact makeRequest_transport_ok t s _ url _ raw hctx (by decide) ht

/-- Witness for C2: a 404 answer yields an `ok = false` envelope with status
404 and the response headers, with no exception. -/
theorem verbs_non2xx_envelope_witness :
    (ApiClient.get t404 client1 "/users").fst =
      .ok (ApiClient.processResponse raw404) ∧
    (ApiClient.processResponse raw404).status = 404 ∧
    (ApiClient.processResponse raw404).ok = false ∧
    (ApiClient.processResponse raw404).headers = raw404.headers := by
  have h := verbs_non2xx_envelope t404 client1 raw404 "/users" none {} rfl
    (fun _ => rfl) (by decide)
  exact ⟨h.1.1, h.2.1, h.2.2.1, h.2.2.2⟩

/-- C5: `healthCheck` never propagates an exception: with a transport that
faults it returns `false` (whatever the client state, so also when the GET
itself throws the not-initialized error), and with a transport that answers
it returns exactly the ok flag of the envelope. -/
theorem healthCheck_total_boolean (s : ApiClient) (msg : String)
    (raw : RawResponse) :
    (∀ t : Transport, (∀ q, t q = .error msg) →
      ApiClient.healthCheck t s = false) ∧
    (s.context = some () → ∀ t : Transport, (∀ q, t q = .ok raw) →
      ApiClient.healthCheck t s = (ApiClient.processResponse raw).ok) := by
  have hm : ApiClient.supportedMethod (ApiClient.toUpperCase "GET") = true := rfl
  constructor
  · intro t ht
    cases hc : s.context with
    | none =>
        have hb : s.context.isNone = true := by rw [hc]; rfl
        simp [ApiClient.healthCheck, ApiClient.get, ApiClient.makeRequest, hb]
    | some u =>
        have hb : s.context.isNone = false := by rw [hc]; rfl
        simp [ApiClient.healthCheck, ApiClient.get, ApiClient.makeRequest, hb,
          hm, ht]
  · intro hctx t ht
    have h := makeRequest_transport_ok t s "GET" "/health" {} raw hctx hm ht
    unfold ApiClient.healthCheck ApiClient.get
    rw [h]

/-- Witness for C5: a connection-refused transport gives `false` on both an
initialized and an uninitialized client; a 200 answer gives `true`. -/
theorem healthCheck_total_boolean_witness :
    ApiClient.healthCheck tErr client1 = false ∧
    ApiClient.healthCheck tErr client0 = false ∧
    ApiClient.healthCheck t200 client1 = true :=
  ⟨(healthCheck_total_boolean client1 "ECONNREFUSED" raw200).1 tErr fun _ => rfl,
   (healthCheck_total_boolean client0 "ECONNREFUSED" raw200).1 tErr fun _ => rfl,
   (healthCheck_total_boolean client1 "ECONNREFUSED" raw200).2 rfl t200 fun _ => rfl⟩

/-- C6: `processResponse` is a total function (body decoding cannot throw
outward), and when the selected body reader fails the envelope keeps the
response status, headers and derived ok flag while the body degrades to
null. -/
theorem processResponse_null_body_on_decode_failure (raw : RawResponse)
    (e : String) (hdec : ApiClient.bodyReader raw = .error e) :
    ApiClient.processResponse raw =
      { status := raw.status, headers := raw.headers, data := none,
        ok := statusOk raw.status } := by
  unfold ApiClient.processResponse
  rw [hdec]
  rfl

/-- Witness for C6: the 404 JSON response whose body fails to parse yields a
null-body envelope with status 404. -/
theorem processResponse_null_body_on_decode_failure_witness :
    ApiClient.bodyReader raw404 = .error "Unexpected end of JSON input" ∧
    ApiClient.processResponse raw404 =
      { status := 404, headers := raw404.headers, data := none, ok := false } :=
  ⟨rfl, processResponse_null_body_on_decode_failure raw404 _ rfl⟩

/-- When every attempt in the budget fails, the loop performs all checks,
sleeps between consecutive attempts only, and throws the timeout error. -/
lemma waitGo_all_false (ts : Nat → Transport) (s : ApiClient) (delay : Nat) :
    ∀ r i, 1 ≤ r →
      (∀ j, j < r → ApiClient.healthCheck (ts (i + j)) s = false) →
      ApiClient.waitGo ts s delay i r =
        (.error "API failed to become ready within timeout", r,
          List.replicate (r - 1) delay) := by
  intro r
  induction r with
  | zero => intro i h1 _; omega
  | succ n ih =>
      intro i h1 hf
      have h0 : ApiClient.healthCheck (ts i) s = false := by
        simpa using hf 0 (by omega)
      cases n with
      | zero => simp [ApiClient.waitGo, h0]
      | succ m =>
          have hshift : ∀ j, j < m + 1 →
              ApiClient.healthCheck (ts (i + 1 + j)) s = false := by
            intro j hj
            have h := hf (j + 1) (by omega)
            have heq : i + (j + 1) = i + 1 + j := by omega
            rw [heq] at h
            exact h
          have hrest := ih (i + 1) (by omega) hshift
          rw [ApiClient.waitGo.eq_2, h0]
          simp [hrest, List.replicate_succ]

/-- When attempt `k` (0-based) is the first to succeed, the loop returns
after `k + 1` checks and `k` inter-attempt sleeps. -/
lemma waitGo_first_true (ts : Nat → Transport) (s : ApiClient) (delay : Nat) :
    ∀ k r i, k < r →
      (∀ j, j < k → ApiClient.healthCheck (ts (i + j)) s = false) →
      ApiClient.healthCheck (ts (i + k)) s = true →
      ApiClient.waitGo ts s delay i r = (.ok (), k + 1, List.replicate k delay) := by
  intro k
  induction k with
  | zero =>
      intro r i hk _ htrue
      cases r with
      | zero => omega
      | succ n =>
          have h : ApiClient.healthCheck (ts i) s = true := by simpa using htrue
          rw [ApiClient.waitGo.eq_2, h]
          simp
  | succ m ih =>
      intro r i hk hf htrue
      cases r with
      | zero => omega
      | succ n =>
          have h0 : ApiClient.healthCheck (ts i) s = false := by
            simpa using hf 0 (by omega)
          have hn : n ≠ 0 := by omega
          have hshift : ∀ j, j < m →
              ApiClient.healthCheck (ts (i + 1 + j)) s = false := by
            intro j hj
            have h := hf (j + 1) (by omega)
            have heq : i + (j + 1) = i + 1 + j := by omega
            rw [heq] at h
            exact h
          have htrue' : ApiClient.healthCheck (ts (i + 1 + m)) s = true := by
            have heq : i + (m + 1) = i + 1 + m := by omega
            rw [heq] at htrue
            exact htrue
          have hrest := ih n (i + 1) (by omega) hshift htrue'
          rw [ApiClient.waitGo.eq_2, h0]
          simp [hn, hrest, List.replicate_succ]

/-- C3: for `maxAttempts ≥ 1`, `waitForApiReady` returns normally as soon as
some health check succeeds — after `k + 1` checks and `k` inter-attempt
delays when attempt `k` (0-based) is the first success — and when every
attempt in the budget fails it throws the readiness-timeout error after
exactly `maxAttempts` checks and `maxAttempts - 1` delays of the given
duration. -/
theorem waitForApiReady_retry_semantics (ts : Nat → Transport) (s : ApiClient)
    (maxAttempts delay : Nat) (hmax : 1 ≤ maxAttempts) :
    ((∀ i, i < maxAttempts → ApiClient.healthCheck (ts i) s = false) →
      ApiClient.waitForApiReady ts s maxAttempts delay =
        (.error "API failed to become ready within timeout", maxAttempts,
          List.replicate (maxAttempts - 1) delay)) ∧
    (∀ k, k < maxAttempts →
      (∀ j, j < k → ApiClient.healthCheck (ts j) s = false) →
      ApiClient.healthCheck (ts k) s = true →
      ApiClient.waitForApiReady ts s maxAttempts delay =
        (.ok (), k + 1, List.replicate k delay)) := by
  constructor
  · intro hf
    have h := waitGo_all_false ts s delay maxAttempts 0 hmax ?_
    · exact h
    · intro j hj
      simpa using hf j hj
  · intro k hk hf htrue
    have h := waitGo_first_true ts s delay k maxAttempts 0 hk ?_ ?_
    · exact h
    · intro j hj
      simpa using hf j hj
    · simpa using htrue

/-- Witness for C3 at `maxAttempts = 3`, `delay = 10`: an always-failing
health endpoint gives the timeout error after 3 checks and 2 delays of 10;
an endpoint that first succeeds on attempt 1 (0-based) returns after 2
checks and 1 delay. -/
theorem waitForApiReady_retry_semantics_witness :
    ApiClient.waitForApiReady (fun _ => tErr) client1 3 10 =
      (.error "API failed to become ready within timeout", 3, [10, 10]) ∧
    ApiClient.waitForApiReady (fun i => if i = 1 then t200 else tErr) client1 3 10 =
      (.ok (), 2, [10]) := by
  constructor
  · exact (waitForApiReady_retry_semantics (fun _ => tErr) client1 3 10
      (by omega)).1 (fun i _ => rfl)
  · refine (waitForApiReady_retry_semantics (fun i => if i = 1 then t200 else tErr)
      client1 3 10 (by omega)).2 1 (by omega) ?_ rfl
    intro j hj
    have hj0 : j = 0 := by omega
    subst hj0
    rfl

/-- On an initialized client, `makeRequest` with a supported method sends
exactly one request, whose headers are the per-call headers merged over the
default headers. -/
lemma makeRequest_snd (t : Transport) (s : ApiClient) (method url : String)
    (opts : RequestOptions)
    (hctx : s.context = some ())
    (hm : ApiClient.supportedMethod (ApiClient.toUpperCase method) = true) :
    (ApiClient.makeRequest t s method url opts).snd =
      [{ method := ApiClient.toUpperCase method
         url := match opts.params with
                | some ps => ApiClient.appendParams url ps
                | none => url
         headers := ApiClient.mergeHeaders s.defaultHeaders opts.headers
         data := opts.data
         timeout := some (opts.timeout.getD 30000) }] := by
  have hb : s.context.isNone = false := by rw [hctx]; rfl
  simp only [ApiClient.makeRequest, hb, Bool.false_eq_true, if_false, hm,
    if_true]
  cases t _ <;> rfl

/-- C10: `setAuthToken` and `clearAuthToken` touch only the `Authorization`
entry of the default-header mapping (set to `Bearer` plus the token,
respectively removed); every other default header, the base URL and the open
context are unchanged, and a subsequent verb call sends exactly the updated
mapping merged under the per-call headers. -/
theorem authToken_frame (s : ApiClient) (token : String) (t : Transport)
    (url : String) (opts : RequestOptions) :
    ((ApiClient.setAuthToken token s).defaultHeaders "Authorization" =
        some ("Bearer " ++ token)) ∧
    ((ApiClient.clearAuthToken s).defaultHeaders "Authorization" = none) ∧
    (∀ k, k ≠ "Authorization" →
      (ApiClient.setAuthToken token s).defaultHeaders k = s.defaultHeaders k ∧
      (ApiClient.clearAuthToken s).defaultHeaders k = s.defaultHeaders k) ∧
    ((ApiClient.setAuthToken token s).baseURL = s.baseURL ∧
     (ApiClient.setAuthToken token s).context = s.context ∧
     (ApiClient.clearAuthToken s).baseURL = s.baseURL ∧
     (ApiClient.clearAuthToken s).context = s.context) ∧
    (s.context = some () →
      ∀ rq ∈ (ApiClient.get t (ApiClient.setAuthToken token s) url opts).snd,
        (opts.headers "Authorization" = none →
          rq.headers "Authorization" = some ("Bearer " ++ token)) ∧
        (∀ k v, opts.headers k = some v → rq.headers k = some v) ∧
        (∀ k, k ≠ "Authorization" → opts.headers k = none →
          rq.headers k = s.defaultHeaders k)) ∧
    (s.context = some () →
      ∀ rq ∈ (ApiClient.get t (ApiClient.clearAuthToken s) url opts).snd,
        (opts.headers "Authorization" = none →
          rq.headers "Authorization" = none) ∧
        (∀ k, k ≠ "Authorization" → opts.headers k = none →
          rq.headers k = s.defaultHeaders k)) := by
  have hm : ApiClient.supportedMethod (ApiClient.toUpperCase "GET") = true := rfl
  refine ⟨?_, ?_, ?_, ?_, ?_, ?_⟩
  · simp [ApiClient.setAuthToken]
  · simp [ApiClient.clearAuthToken]
  · intro k hk
    constructor
    · simp [ApiClient.setAuthToken, hk]
    · simp [ApiClient.clearAuthToken, hk]
  · exact ⟨rfl, rfl, rfl, rfl⟩
  · intro hctx rq hrq
    rw [ApiClient.get, makeRequest_snd t _ "GET" url opts
      (by simpa [ApiClient.setAuthToken] using hctx) hm] at hrq
    rw [List.mem_singleton] at hrq
    subst hrq
    refine ⟨?_, ?_, ?_⟩
    · intro hnone
      simp [ApiClient.mergeHeaders, hnone, ApiClient.setAuthToken]
    · intro k v hv
      simp [ApiClient.mergeHeaders, hv]
    · intro k hk hnone
      simp [ApiClient.mergeHeaders, hnone, ApiClient.setAuthToken, hk]
  · intro hctx rq hrq
    rw [ApiClient.get, makeRequest_snd t _ "GET" url opts
      (by simpa [ApiClient.clearAuthToken] using hctx) hm] at hrq
    rw [List.mem_singleton] at hrq
    subst hrq
    refine ⟨?_, ?_⟩
    · intro hnone
      simp [ApiClient.mergeHeaders, hnone, ApiClient.clearAuthToken]
    · intro k hk hnone
      simp [ApiClient.mergeHeaders, hnone, ApiClient.clearAuthToken, hk]

/-- Witness for C10: setting token `tok` on the initialized client updates
only the `Authorization` entry (the `Content-Type` default survives), clearing
removes it, and the request a subsequent GET sends carries the bearer
header. -/
theorem authToken_frame_witness :
    (ApiClient.setAuthToken "tok" client1).defaultHeaders "Authorization" =
      some ("Bearer " ++ "tok") ∧
    (ApiClient.clearAuthToken client1).defaultHeaders "Authorization" = none ∧
    (ApiClient.setAuthToken "tok" client1).defaultHeaders "Content-Type" =
      client1.defaultHeaders "Content-Type" ∧
    (ApiClient.setAuthToken "tok" client1).context = client1.context ∧
    ((ApiClient.get tErr (ApiClient.setAuthToken "tok" client1) "/users" {}).snd.getD 0
        sent0).headers "Authorization" = some ("Bearer " ++ "tok") := by
  refine ⟨(authToken_frame client1 "tok" tErr "/users" {}).1,
    (authToken_frame client1 "tok" tErr "/users" {}).2.1,
    ((authToken_frame client1 "tok" tErr "/users" {}).2.2.1 "Content-Type"
      (by decide)).1,
    (authToken_frame client1 "tok" tErr "/users" {}).2.2.2.1.2.1,
    ?_⟩
  have h := (authToken_frame client1 "tok" tErr "/users" {}).2.2.2.2.1 rfl
  exact (h _ (List.Mem.head _)).1 rfl
